import Mathlib

/-!
# Verification of the request-to-response mapping of the `node-api2-guided` API

A shallow embedding of the Express teaching API in this repository: the JSON
value model, the data-access collaborator as an oracle of fallible methods
(`find`, `findById`, `add`, `remove`, `update`, `findHubMessages`,
`addMessage`, `findMessageById`, `findDogs`), each route handler as a pure
function from the collaborator and the request pieces to the list of
collaborator calls it makes and the HTTP response it sends, and the routing
layer (`server.js` prefix bindings, router route tables in registration
order) as a dispatch function.  Requests that no registered handler matches
are modelled as `none` (they are left to the framework's default handling,
which is outside this repository).
-/

/-- A JSON value, as produced by the global JSON body parser and consumed by
`res.json`.  Numbers are modelled as integers (no float behaviour is at stake
in any handler). -/
inductive Json where
  | null : Json
  | bool : Bool → Json
  | num : Int → Json
  | str : String → Json
  | arr : List Json → Json
  | obj : List (String × Json) → Json

mutual

/-- Structural equality test on JSON values. -/
def Json.beq : Json → Json → Bool
  | .null, .null => true
  | .bool a, .bool b => a == b
  | .num a, .num b => a == b
  | .str a, .str b => a == b
  | .arr xs, .arr ys => beqArr xs ys
  | .obj fs, .obj gs => beqObj fs gs
  | _, _ => false

/-- Equality test on JSON arrays, element by element. -/
def beqArr : List Json → List Json → Bool
  | [], [] => true
  | x :: xs, y :: ys => Json.beq x y && beqArr xs ys
  | _, _ => false

/-- Equality test on JSON object field lists, field by field. -/
def beqObj : List (String × Json) → List (String × Json) → Bool
  | [], [] => true
  | (k, v) :: fs, (l, w) :: gs => k == l && Json.beq v w && beqObj fs gs
  | _, _ => false

end

mutual

theorem Json.beq_iff : ∀ a b : Json, Json.beq a b = true ↔ a = b
  | .null, .null => by simp [Json.beq]
  | .bool a, .bool b => by simp [Json.beq]
  | .num a, .num b => by simp [Json.beq]
  | .str a, .str b => by simp [Json.beq]
  | .arr xs, .arr ys => by simp [Json.beq, beqArr_iff xs ys]
  | .obj fs, .obj gs => by simp [Json.beq, beqObj_iff fs gs]
  | .null, .bool _ | .null, .num _ | .null, .str _ | .null, .arr _ | .null, .obj _
  | .bool _, .null | .bool _, .num _ | .bool _, .str _ | .bool _, .arr _ | .bool _, .obj _
  | .num _, .null | .num _, .bool _ | .num _, .str _ | .num _, .arr _ | .num _, .obj _
  | .str _, .null | .str _, .bool _ | .str _, .num _ | .str _, .arr _ | .str _, .obj _
  | .arr _, .null | .arr _, .bool _ | .arr _, .num _ | .arr _, .str _ | .arr _, .obj _
  | .obj _, .null | .obj _, .bool _ | .obj _, .num _ | .obj _, .str _ | .obj _, .arr _ =>
    by simp [Json.beq]

theorem beqArr_iff : ∀ xs ys : List Json, beqArr xs ys = true ↔ xs = ys
  | [], [] => by simp [beqArr]
  | x :: xs, y :: ys => by simp [beqArr, Json.beq_iff x y, beqArr_iff xs ys]
  | [], _ :: _ => by simp [beqArr]
  | _ :: _, [] => by simp [beqArr]

theorem beqObj_iff : ∀ fs gs : List (String × Json), beqObj fs gs = true ↔ fs = gs
  | [], [] => by simp [beqObj]
  | (k, v) :: fs, (l, w) :: gs => by
      simp [beqObj, Json.beq_iff v w, beqObj_iff fs gs, Prod.ext_iff, and_assoc]
  | [], _ :: _ => by simp [beqObj]
  | _ :: _, [] => by simp [beqObj]

end

instance : DecidableEq Json := fun a b => decidable_of_iff _ (Json.beq_iff a b)

/-- JavaScript truthiness of a JSON value, as tested by `if (hub) { ... }`:
`null`, `false`, `0` and the empty string are falsy, everything else
(including any array or object) is truthy. -/
def Json.truthy : Json → Bool
  | .null => false
  | .bool b => b
  | .num n => n != 0
  | .str s => s != ""
  | .arr _ => true
  | .obj _ => true

/-- First-match property lookup on a field list (JavaScript object access). -/
def lookupKey : List (String × Json) → String → Option Json
  | [], _ => none
  | (k0, v0) :: rest, k => if k0 = k then some v0 else lookupKey rest k

/-- Property access `j[k]` on a JSON value: defined on objects, `none`
otherwise. -/
def Json.getField : Json → String → Option Json
  | .obj fs, k => lookupKey fs k
  | _, _ => none

/-- The field list of the spread `{...x}`: an object contributes its own
fields, an array its elements under their index keys, a string its characters
under their index keys, and primitives contribute nothing — JavaScript's own
enumerable-property semantics. -/
def jsSpread : Json → List (String × Json)
  | .obj fs => fs
  | .arr xs => (List.range xs.length).zip xs |>.map fun p => (toString p.1, p.2)
  | .str s => (List.range s.length).zip s.toList |>.map fun p => (toString p.1, Json.str (String.mk [p.2]))
  | _ => []

/-- Writing key `k` in an object literal after a spread, `{...fs, k: v}`:
if `k` is already present its (first) occurrence keeps its position and takes
the new value, otherwise `k: v` is appended. -/
def setKey : List (String × Json) → String → Json → List (String × Json)
  | [], k, v => [(k, v)]
  | (k0, v0) :: rest, k, v =>
    if k0 = k then (k0, v) :: rest else (k0, v0) :: setKey rest k v

/-- An HTTP method, as far as the registered routes discriminate. -/
inductive Method where
  | get : Method
  | post : Method
  | put : Method
  | delete : Method
  | patch : Method
deriving DecidableEq

/-- A response body: `res.json(j)` sends JSON, `res.send(s)` sends text. -/
inductive RBody where
  | json : Json → RBody
  | text : String → RBody
deriving DecidableEq

/-- An HTTP response as a handler produces it: status code and body. -/
structure Response where
  status : Nat
  body : RBody
deriving DecidableEq

/-- The JSON body of a response, when it has one. -/
def Response.bodyJson : Response → Option Json
  | ⟨_, .json j⟩ => some j
  | ⟨_, .text _⟩ => none

/-- A field of the JSON body of a response, when both exist. -/
def Response.bodyField (r : Response) (k : String) : Option Json :=
  match r.body with
  | .json j => j.getField k
  | .text _ => none

/-- One round trip to the data-access collaborator: which model method was
invoked, and with which arguments. -/
inductive DbCall where
  | find : Json → DbCall
  | findById : String → DbCall
  | add : Json → DbCall
  | remove : String → DbCall
  | update : String → Json → DbCall
  | findHubMessages : String → DbCall
  | addMessage : Json → DbCall
  | findMessageById : String → DbCall
  | findDogs : String → DbCall
deriving DecidableEq

/-- The data-access collaborator (`hubs-model.js` / `adopters-model.js`) as an
oracle: every method either resolves with a value or rejects with an arbitrary
JSON-modelled error value.  `remove` resolves with the number of rows removed,
the two child-listing methods with a collection; every other method resolves
with an entity (possibly `null`). -/
structure Db where
  find : Json → Except Json Json
  findById : String → Except Json Json
  add : Json → Except Json Json
  remove : String → Except Json Nat
  update : String → Json → Except Json Json
  findHubMessages : String → Except Json (List Json)
  addMessage : Json → Except Json Json
  findMessageById : String → Except Json Json
  findDogs : String → Except Json (List Json)

/-- A collaborator every one of whose methods rejects with the error value
`e` — the oracle for "any collaborator-layer failure" (each handler makes at
most one call, so the uniform failure exercises exactly that call's
rejection). -/
def failingDb (e : Json) : Db where
  find := fun _ => .error e
  findById := fun _ => .error e
  add := fun _ => .error e
  remove := fun _ => .error e
  update := fun _ _ => .error e
  findHubMessages := fun _ => .error e
  addMessage := fun _ => .error e
  findMessageById := fun _ => .error e
  findDogs := fun _ => .error e

/-- A collaborator every one of whose methods succeeds with a truthy,
non-empty result — a concrete "happy path" oracle for witnesses. -/
def goodDb : Db where
  find := fun _ => .ok (.arr [.obj [("id", .num 1)]])
  findById := fun _ => .ok (.obj [("id", .num 1)])
  add := fun b => .ok b
  remove := fun _ => .ok 1
  update := fun _ c => .ok c
  findHubMessages := fun _ => .ok [.obj [("id", .num 1)]]
  addMessage := fun p => .ok p
  findMessageById := fun _ => .ok (.obj [("id", .num 1)])
  findDogs := fun _ => .ok [.obj [("id", .num 1)]]

/-- A request as the controller middleware sees it: the `:id` path parameter,
the parsed query object and the parsed JSON body. -/
structure Req where
  id : String
  query : Json
  body : Json

/- ## The hubs router (`hubs-router.js`), handlers in registration order -/

/-- Handler for `GET /` — `Hubs.find(req.query)`, 200 with the collection, 500 with a
fixed message on rejection. -/
def hubsFind (db : Db) (q : Json) : List DbCall × Response :=
  ([.find q],
    match db.find q with
    | .ok hubs => ⟨200, .json hubs⟩
    | .error _ => ⟨500, .json (.obj [("message", .str "Error retrieving the hubs")])⟩)

/-- Handler for `GET /:id` — `Hubs.findById`, 200 with the hub if truthy, 404 otherwise,
500 with a fixed message on rejection. -/
def hubsFindById (db : Db) (id : String) : List DbCall × Response :=
  ([.findById id],
    match db.findById id with
    | .ok hub =>
      if hub.truthy then ⟨200, .json hub⟩
      else ⟨404, .json (.obj [("message", .str "Hub not found")])⟩
    | .error _ => ⟨500, .json (.obj [("message", .str "Error retrieving the hub")])⟩)

/-- Handler for `POST /` — `Hubs.add(req.body)`, 201 with the created hub, 500 with a
fixed message on rejection. -/
def hubsAdd (db : Db) (b : Json) : List DbCall × Response :=
  ([.add b],
    match db.add b with
    | .ok hub => ⟨201, .json hub⟩
    | .error _ => ⟨500, .json (.obj [("message", .str "Error adding the hub")])⟩)

/-- Handler for `DELETE /:id` — `Hubs.remove`, 200 with a confirmation if `count > 0`,
404 otherwise, 500 with a fixed message on rejection. -/
def hubsRemove (db : Db) (id : String) : List DbCall × Response :=
  ([.remove id],
    match db.remove id with
    | .ok count =>
      if count > 0 then ⟨200, .json (.obj [("message", .str "The hub has been nuked")])⟩
      else ⟨404, .json (.obj [("message", .str "The hub could not be found")])⟩
    | .error _ => ⟨500, .json (.obj [("message", .str "Error removing the hub")])⟩)

/-- Handler for `PUT /:id` — `Hubs.update(req.params.id, req.body)`, 200 with the updated
hub if truthy, 404 otherwise, 500 with a fixed message on rejection. -/
def hubsUpdate (db : Db) (id : String) (b : Json) : List DbCall × Response :=
  ([.update id b],
    match db.update id b with
    | .ok hub =>
      if hub.truthy then ⟨200, .json hub⟩
      else ⟨404, .json (.obj [("message", .str "The hub could not be found")])⟩
    | .error _ => ⟨500, .json (.obj [("message", .str "Error updating the hub")])⟩)

/-- Handler for `GET /:id/messages` — `Hubs.findHubMessages`, 200 with the array if
non-empty (`messages.length > 0`), 404 otherwise, 500 with a fixed message on
rejection. -/
def hubsGetMessages (db : Db) (id : String) : List DbCall × Response :=
  ([.findHubMessages id],
    match db.findHubMessages id with
    | .ok messages =>
      if messages.length > 0 then ⟨200, .json (.arr messages)⟩
      else ⟨404, .json (.obj [("message", .str "No messages for this hub")])⟩
    | .error _ => ⟨500, .json (.obj [("message", .str "Error retrieving the messages for this hub")])⟩)

/-- The payload of the nested create: `{ ...req.body, hub_id: req.params.id }`
(the path parameter arrives as a string). -/
def messageInfo (b : Json) (id : String) : Json :=
  .obj (setKey (jsSpread b) "hub_id" (.str id))

/-- Handler for `POST /:id/messages` — one `Hubs.addMessage` call on the pre-merged
payload, 201 with the created message; on rejection, 500 with the raw error
value in the body (`res.status(500).json({ err })`). -/
def hubsPostMessage (db : Db) (id : String) (b : Json) : List DbCall × Response :=
  ([.addMessage (messageInfo b id)],
    match db.addMessage (messageInfo b id) with
    | .ok message => ⟨201, .json message⟩
    | .error err => ⟨500, .json (.obj [("err", err)])⟩)

/- ## The messages router (`messages-router.js`) -/

/-- Handler for `GET /:id` — `Hubs.findMessageById`, 200 with the message if truthy, 404
with `{success:false, message:'invalid message id'}` otherwise; on rejection,
500 with the raw error value in the `message` field
(`res.status(500).json({ success: false, message: err })`). -/
def messagesGetById (db : Db) (id : String) : List DbCall × Response :=
  ([.findMessageById id],
    match db.findMessageById id with
    | .ok message =>
      if message.truthy then ⟨200, .json message⟩
      else ⟨404, .json (.obj [("success", .bool false), ("message", .str "invalid message id")])⟩
    | .error err => ⟨500, .json (.obj [("success", .bool false), ("message", err)])⟩)

/- ## The adopters router (`adopters-router.js`), inline handlers -/

/-- Handler for `GET /` — `Adopter.find(req.query)`. -/
def adoptersFind (db : Db) (q : Json) : List DbCall × Response :=
  ([.find q],
    match db.find q with
    | .ok adopters => ⟨200, .json adopters⟩
    | .error _ => ⟨500, .json (.obj [("message", .str "Error retrieving the adopters")])⟩)

/-- Handler for `GET /:id` — `Adopter.findById`. -/
def adoptersFindById (db : Db) (id : String) : List DbCall × Response :=
  ([.findById id],
    match db.findById id with
    | .ok adopter =>
      if adopter.truthy then ⟨200, .json adopter⟩
      else ⟨404, .json (.obj [("message", .str "Adopter not found")])⟩
    | .error _ => ⟨500, .json (.obj [("message", .str "Error retrieving the adopter")])⟩)

/-- The first registration of `GET /:id/dogs` — `Adopter.findDogs`, written
promise-chain style (`.then`/`.catch`). -/
def adoptersGetDogs1 (db : Db) (id : String) : List DbCall × Response :=
  ([.findDogs id],
    match db.findDogs id with
    | .ok dogs =>
      if dogs.length > 0 then ⟨200, .json (.arr dogs)⟩
      else ⟨404, .json (.obj [("message", .str "No dogs for this adopter")])⟩
    | .error _ => ⟨500, .json (.obj [("message", .str "Error retrieving the dogs for this adopter")])⟩)

/-- The second registration of `GET /:id/dogs` — the same lookup written
async/await style (`try`/`catch`); same statuses and same bodies. -/
def adoptersGetDogs2 (db : Db) (id : String) : List DbCall × Response :=
  ([.findDogs id],
    match db.findDogs id with
    | .ok dogs =>
      if dogs.length > 0 then ⟨200, .json (.arr dogs)⟩
      else ⟨404, .json (.obj [("message", .str "No dogs for this adopter")])⟩
    | .error _ => ⟨500, .json (.obj [("message", .str "Error retrieving the dogs for this adopter")])⟩)

/-- Handler for `POST /` — `Adopter.add(req.body)`. -/
def adoptersAdd (db : Db) (b : Json) : List DbCall × Response :=
  ([.add b],
    match db.add b with
    | .ok adopter => ⟨201, .json adopter⟩
    | .error _ => ⟨500, .json (.obj [("message", .str "Error adding the adopter")])⟩)

/-- Handler for `DELETE /:id` — `Adopter.remove`. -/
def adoptersRemove (db : Db) (id : String) : List DbCall × Response :=
  ([.remove id],
    match db.remove id with
    | .ok count =>
      if count > 0 then ⟨200, .json (.obj [("message", .str "The adopter has been nuked")])⟩
      else ⟨404, .json (.obj [("message", .str "The adopter could not be found")])⟩
    | .error _ => ⟨500, .json (.obj [("message", .str "Error removing the adopter")])⟩)

/-- Handler for `PUT /:id` — `Adopter.update(req.params.id, req.body)`. -/
def adoptersUpdate (db : Db) (id : String) (b : Json) : List DbCall × Response :=
  ([.update id b],
    match db.update id b with
    | .ok adopter =>
      if adopter.truthy then ⟨200, .json adopter⟩
      else ⟨404, .json (.obj [("message", .str "The adopter could not be found")])⟩
    | .error _ => ⟨500, .json (.obj [("message", .str "Error updating the adopter")])⟩)

/- ## The adopters controller module (`src/unnamed/part_000`) -/

/-- Controller `getAdopters` — `Adopter.find(req.query)`, 200 with the
collection, 500 with a fixed message on rejection. -/
def getAdopters (db : Db) (req : Req) : List DbCall × Response :=
  ([.find req.query],
    match db.find req.query with
    | .ok adopters => ⟨200, .json adopters⟩
    | .error _ => ⟨500, .json (.obj [("message", .str "Error retrieving the adopters")])⟩)

/-- Controller `getAdopterById` — `Adopter.findById`, 200 if truthy, 404 with
`{message:"invalid id"}` otherwise, 500 with a fixed message on rejection. -/
def getAdopterById (db : Db) (req : Req) : List DbCall × Response :=
  ([.findById req.id],
    match db.findById req.id with
    | .ok adopter =>
      if adopter.truthy then ⟨200, .json adopter⟩
      else ⟨404, .json (.obj [("message", .str "invalid id")])⟩
    | .error _ => ⟨500, .json (.obj [("message", .str "Error retrieving the adopters")])⟩)

/-- Controller `getAdopterDogs` — `Adopter.findDogs`, 200 with the array with
no emptiness check, 500 with a fixed message on rejection. -/
def getAdopterDogs (db : Db) (req : Req) : List DbCall × Response :=
  ([.findDogs req.id],
    match db.findDogs req.id with
    | .ok dogs => ⟨200, .json (.arr dogs)⟩
    | .error _ => ⟨500, .json (.obj [("message", .str "Error retrieving the adopters")])⟩)

/-- Controller `postAdopter` — unimplemented stub: unconditionally 400 with
the body `implemented: false`, no collaborator call. -/
def postAdopter (_db : Db) (_req : Req) : List DbCall × Response :=
  ([], ⟨400, .json (.obj [("implemented", .bool false)])⟩)

/-- Controller `deleteAdopterById` — unimplemented stub, same fixed 400. -/
def deleteAdopterById (_db : Db) (_req : Req) : List DbCall × Response :=
  ([], ⟨400, .json (.obj [("implemented", .bool false)])⟩)

/-- Controller `putAdopterById` — unimplemented stub, same fixed 400. -/
def putAdopterById (_db : Db) (_req : Req) : List DbCall × Response :=
  ([], ⟨400, .json (.obj [("implemented", .bool false)])⟩)

/-- The controller module's export object: the six entries, in source order,
each under its exported name. -/
def adoptersController : List (String × (Db → Req → List DbCall × Response)) :=
  [("getAdopters", getAdopters),
   ("getAdopterById", getAdopterById),
   ("getAdopterDogs", getAdopterDogs),
   ("postAdopter", postAdopter),
   ("deleteAdopterById", deleteAdopterById),
   ("putAdopterById", putAdopterById)]

/- ## Routing: route tables in registration order, prefix mounting
(`server.js`) -/

/-- Express middleware chaining: the first registered middleware that
produces a response wins; when it produces none, control falls through to the
next one. -/
def firstHit {α : Type} (a b : Option α) : Option α :=
  match a with
  | some x => some x
  | none => b

/-- Prefix matching on path segments: `server.use(prefixSegs, router)` hands
the router the remaining segments when the request path starts with the bound
segments, and does not fire otherwise. -/
def underRoot : List String → List String → Option (List String)
  | [], rest => some rest
  | _ :: _, [] => none
  | p :: ps, q :: qs => if p = q then underRoot ps qs else none

/-- The hubs router's route table (first router variant in the corpus):
`GET /`, `GET /:id`, `POST /`, `DELETE /:id`, `PUT /:id`,
`GET /:id/messages`, `POST /:id/messages`; anything else falls through. -/
def hubsRouter (db : Db) (m : Method) (path : List String) (q b : Json) :
    Option (List DbCall × Response) :=
  match m, path with
  | .get, [] => some (hubsFind db q)
  | .get, [id] => some (hubsFindById db id)
  | .get, [id, s] => if s = "messages" then some (hubsGetMessages db id) else none
  | .post, [] => some (hubsAdd db b)
  | .post, [id, s] => if s = "messages" then some (hubsPostMessage db id b) else none
  | .delete, [id] => some (hubsRemove db id)
  | .put, [id] => some (hubsUpdate db id b)
  | _, _ => none

/-- The messages router's route table: `GET /:id` only. -/
def messagesRouter (db : Db) (m : Method) (path : List String) :
    Option (List DbCall × Response) :=
  match m, path with
  | .get, [id] => some (messagesGetById db id)
  | _, _ => none

/-- The welcome page the root handler sends (`res.send` of the template
literal in `server.js`). -/
def welcomeHtml : String :=
  "\n      <h2>Lambda Hubs API</h>\n      <p>Welcome to the Lambda Hubs API</p>\n    "

/-- The default-router handler `server.get('/')`: the static welcome text,
no collaborator call. -/
def rootRoute (m : Method) (path : List String) : Option (List DbCall × Response) :=
  match path, m with
  | [], .get => some ([], ⟨200, .text welcomeHtml⟩)
  | _, _ => none

/-- The application in `server.js`: the bindings in registration order —
`/api/hubs`, `/repos` and `/thing/otherthing` all to the one hubs router
object, `/api/messages` to the messages router, then the root welcome
handler.  `none` means no handler registered in this repository matched; such
requests are left to the framework's default handling. -/
def serverDispatch (db : Db) (m : Method) (path : List String) (q b : Json) :
    Option (List DbCall × Response) :=
  firstHit
    (match underRoot ["api", "hubs"] path with
      | some s => hubsRouter db m s q b
      | none => none)
    (firstHit
      (match underRoot ["repos"] path with
        | some s => hubsRouter db m s q b
        | none => none)
      (firstHit
        (match underRoot ["thing", "otherthing"] path with
          | some s => hubsRouter db m s q b
          | none => none)
        (firstHit
          (match underRoot ["api", "messages"] path with
            | some s => messagesRouter db m s
            | none => none)
          (rootRoute m path))))

/-- The adopters router's route table, in registration order, including both
registrations of `GET /:id/dogs`: a route only fires when every
earlier-registered route fell through, and none of these handlers ever calls
`next()`, so the first match sends the response. -/
def adoptersRouter (db : Db) (m : Method) (path : List String) (q b : Json) :
    Option (List DbCall × Response) :=
  match m, path with
  | .get, [] => some (adoptersFind db q)
  | .get, [id] => some (adoptersFindById db id)
  | .get, [id, s] =>
    if s = "dogs" then
      firstHit (some (adoptersGetDogs1 db id)) (some (adoptersGetDogs2 db id))
    else none
  | .post, [] => some (adoptersAdd db b)
  | .delete, [id] => some (adoptersRemove db id)
  | .put, [id] => some (adoptersUpdate db id b)
  | _, _ => none

/-- The same route table with the second (shadowed) `GET /:id/dogs`
registration removed. -/
def adoptersRouterNoDup (db : Db) (m : Method) (path : List String) (q b : Json) :
    Option (List DbCall × Response) :=
  match m, path with
  | .get, [] => some (adoptersFind db q)
  | .get, [id] => some (adoptersFindById db id)
  | .get, [id, s] => if s = "dogs" then some (adoptersGetDogs1 db id) else none
  | .post, [] => some (adoptersAdd db b)
  | .delete, [id] => some (adoptersRemove db id)
  | .put, [id] => some (adoptersUpdate db id b)
  | _, _ => none

/- ## Rendering a response to bytes -/

mutual

/-- Serialisation of a JSON value, `JSON.stringify`-style (the string escape
table is not at stake in any claim: bodies are compared as whole values). -/
def Json.render : Json → String
  | .null => "null"
  | .bool true => "true"
  | .bool false => "false"
  | .num n => toString n
  | .str s => "\"" ++ s ++ "\""
  | .arr xs => "[" ++ renderArr xs ++ "]"
  | .obj fs => "\x7b" ++ renderObj fs ++ "\x7d"

/-- Serialisation of the elements of a JSON array. -/
def renderArr : List Json → String
  | [] => ""
  | [x] => Json.render x
  | x :: xs => Json.render x ++ "," ++ renderArr xs

/-- Serialisation of the fields of a JSON object. -/
def renderObj : List (String × Json) → String
  | [] => ""
  | [(k, v)] => "\"" ++ k ++ "\":" ++ Json.render v
  | (k, v) :: fs => "\"" ++ k ++ "\":" ++ Json.render v ++ "," ++ renderObj fs

end

/-- The bytes of a response on the wire, as far as the claims compare them:
the status code followed by the serialised body. -/
def Response.wire (r : Response) : String :=
  toString r.status ++ " " ++
    (match r.body with
      | .json j => j.render
      | .text s => s)

/-- The response a controller stub sends: 400, `implemented: false`, with no
collaborator call. -/
def stubOutput : List DbCall × Response :=
  ([], ⟨400, .json (.obj [("implemented", .bool false)])⟩)

/-- Whether a handler outcome is exactly the stub outcome. -/
def isStubOutput (o : List DbCall × Response) : Bool :=
  decide (o = stubOutput)

/-- A concrete request, for evaluating handlers at one input. -/
def cReq : Req := ⟨"1", .null, .null⟩

/-- A store resolving every `findById` with the entity whose `id` is the
requested id itself. -/
def dbEchoId : Db :=
  { goodDb with findById := fun i => .ok (.obj [("id", .str i)]) }

/-- A store resolving every `findById` with `null` (no such row). -/
def dbNullById : Db :=
  { goodDb with findById := fun _ => .ok .null }

/-- A store whose child-listing calls resolve with the empty collection. -/
def dbNoChildren : Db :=
  { goodDb with findHubMessages := fun _ => .ok [], findDogs := fun _ => .ok [] }

/-- A store whose `remove` matches no row (count zero). -/
def dbRemoveNone : Db := { goodDb with remove := fun _ => .ok 0 }

/-- A store whose `findMessageById` resolves with `null`. -/
def dbNullMessage : Db := { goodDb with findMessageById := fun _ => .ok .null }

/- ## Helper lemmas -/

/-- Writing a key after a spread makes that key read back as the written
value, whether or not the key was already present. -/
theorem lookupKey_setKey (fs : List (String × Json)) (k : String) (v : Json) :
    lookupKey (setKey fs k v) k = some v := by
  induction fs with
  | nil => simp [setKey, lookupKey]
  | cons kv t ih =>
    obtain ⟨k0, v0⟩ := kv
    by_cases hk : k0 = k
    · simp [setKey, hk, lookupKey]
    · simp [setKey, hk, lookupKey, ih]

/-- The merged nested-create payload always carries the path id under
`hub_id`. -/
theorem messageInfo_hub_id (b : Json) (id : String) :
    (messageInfo b id).getField "hub_id" = some (.str id) := by
  simp [messageInfo, Json.getField, lookupKey_setKey]

/-- Middleware chaining produces a response only from one of its two
branches. -/
theorem firstHit_eq_some {α : Type} {a b : Option α} {r : α}
    (h : firstHit a b = some r) : a = some r ∨ b = some r := by
  cases a <;> simp_all [firstHit]

/- ## The claims -/

/-- C2: `POST /:id/messages` makes exactly one collaborator call, to
`addMessage`, whose payload is the request body with its `hub_id` field
overwritten or inserted to equal the `:id` path parameter (which arrives as
the string taken from the URL), and on collaborator success the response is
201 with the created object. -/
theorem postMessage_merges_parent_id (db : Db) (id : String) (b : Json) :
    (hubsPostMessage db id b).1 = [DbCall.addMessage (messageInfo b id)] ∧
    (messageInfo b id).getField "hub_id" = some (.str id) ∧
    (∀ m, db.addMessage (messageInfo b id) = .ok m →
      (hubsPostMessage db id b).2 = ⟨201, .json m⟩) := by
  refine ⟨rfl, messageInfo_hub_id b id, ?_⟩
  intro m hm
  simp [hubsPostMessage, hm]

/-- C2 witness: posting the body `text: "hi"` under parent id `"7"` yields
the single `addMessage` call whose payload's `hub_id` equals `"7"`, and the
201 response carries the created object. -/
theorem postMessage_merges_parent_id_witness :
    (hubsPostMessage goodDb "7" (.obj [("text", .str "hi")])).1
      = [DbCall.addMessage (.obj [("text", .str "hi"), ("hub_id", .str "7")])] ∧
    (messageInfo (.obj [("text", .str "hi")]) "7").getField "hub_id" = some (.str "7") ∧
    (hubsPostMessage goodDb "7" (.obj [("text", .str "hi")])).2
      = ⟨201, .json (.obj [("text", .str "hi"), ("hub_id", .str "7")])⟩ := by
  obtain ⟨h1, h2, h3⟩ := postMessage_merges_parent_id goodDb "7" (.obj [("text", .str "hi")])
  exact ⟨h1, h2, h3 _ rfl⟩

/-- C3: on both parent-resource routers (`hubs` and `adopters`),
`GET /:id` answers 200 with the entity itself when `findById` resolves with a
truthy entity — so the body's `id` field is exactly the stored entity's `id`
field, the one looked up under the requested id — and answers 404 with a
JSON object carrying a `message` field when `findById` resolves with a falsy
result. -/
theorem getById_found_notFound (db : Db) (i : String) :
    (∀ h, db.findById i = .ok h → h.truthy = true →
      (hubsFindById db i).2 = ⟨200, .json h⟩ ∧
      (adoptersFindById db i).2 = ⟨200, .json h⟩ ∧
      (∀ v, h.getField "id" = some v →
        ((hubsFindById db i).2).bodyField "id" = some v ∧
        ((adoptersFindById db i).2).bodyField "id" = some v)) ∧
    (∀ h, db.findById i = .ok h → h.truthy = false →
      (hubsFindById db i).2 = ⟨404, .json (.obj [("message", .str "Hub not found")])⟩ ∧
      (adoptersFindById db i).2 = ⟨404, .json (.obj [("message", .str "Adopter not found")])⟩ ∧
      ((hubsFindById db i).2).bodyField "message" = some (.str "Hub not found") ∧
      ((adoptersFindById db i).2).bodyField "message" = some (.str "Adopter not found")) := by
  constructor
  · intro h hok htr
    refine ⟨?_, ?_, ?_⟩ <;>
      simp [hubsFindById, adoptersFindById, hok, htr, Response.bodyField]
  · intro h hok htr
    refine ⟨?_, ?_, ?_, ?_⟩ <;>
      simp [hubsFindById, adoptersFindById, hok, htr, Response.bodyField,
        Json.getField, lookupKey]

/-- C3 witness: under a store holding the entity with `id = "3"` at id `"3"`,
`GET /:id` answers 200 and the body's `id` field is `"3"`; under a store
resolving `null`, it answers 404 with the `message` body. -/
theorem getById_found_notFound_witness :
    (hubsFindById dbEchoId "3").2.bodyField "id" = some (.str "3") ∧
    (hubsFindById dbNullById "9").2
      = ⟨404, .json (.obj [("message", .str "Hub not found")])⟩ := by
  constructor
  · exact (((getById_found_notFound dbEchoId "3").1 _ rfl rfl).2.2 _ rfl).1
  · exact ((getById_found_notFound dbNullById "9").2 _ rfl rfl).1

/-- C4: when the child-listing collaborator call succeeds with an empty
collection, the inline variants (`GET /:id/messages` on hubs,
`GET /:id/dogs` on adopters) answer 404 with a message body, while the
controller variant `getAdopterDogs` performs no emptiness check and answers
200 with the empty JSON array; when the collection is non-empty, all of them
answer 200 with the JSON array. -/
theorem listChildren_empty_handling (db : Db) (i : String) (req : Req) :
    (db.findHubMessages i = .ok [] →
      (hubsGetMessages db i).2
        = ⟨404, .json (.obj [("message", .str "No messages for this hub")])⟩) ∧
    (db.findDogs i = .ok [] →
      (adoptersGetDogs1 db i).2
        = ⟨404, .json (.obj [("message", .str "No dogs for this adopter")])⟩) ∧
    (∀ l, db.findDogs req.id = .ok l →
      (getAdopterDogs db req).2 = ⟨200, .json (.arr l)⟩) ∧
    (∀ l, db.findHubMessages i = .ok l → l ≠ [] →
      (hubsGetMessages db i).2 = ⟨200, .json (.arr l)⟩) ∧
    (∀ l, db.findDogs i = .ok l → l ≠ [] →
      (adoptersGetDogs1 db i).2 = ⟨200, .json (.arr l)⟩) := by
  refine ⟨?_, ?_, ?_, ?_, ?_⟩
  · intro h; simp [hubsGetMessages, h]
  · intro h; simp [adoptersGetDogs1, h]
  · intro l h; simp [getAdopterDogs, h]
  · intro l h hne
    cases l with
    | nil => exact absurd rfl hne
    | cons x xs => simp [hubsGetMessages, h]
  · intro l h hne
    cases l with
    | nil => exact absurd rfl hne
    | cons x xs => simp [adoptersGetDogs1, h]

/-- C4 witness: with no children stored, the inline hubs variant answers 404,
the controller variant answers 200 with the empty array; with one child
stored, the inline hubs variant answers 200 with the array. -/
theorem listChildren_empty_handling_witness :
    (hubsGetMessages dbNoChildren "3").2
      = ⟨404, .json (.obj [("message", .str "No messages for this hub")])⟩ ∧
    (getAdopterDogs dbNoChildren cReq).2 = ⟨200, .json (.arr [])⟩ ∧
    (hubsGetMessages goodDb "3").2
      = ⟨200, .json (.arr [.obj [("id", .num 1)]])⟩ := by
  refine ⟨?_, ?_, ?_⟩
  · exact (listChildren_empty_handling dbNoChildren "3" cReq).1 rfl
  · exact (listChildren_empty_handling dbNoChildren "3" cReq).2.2.1 _ rfl
  · exact (listChildren_empty_handling goodDb "3" cReq).2.2.2.1 _ rfl (by simp)

/-- C5: on both parent-resource routers, `DELETE /:id` answers 200 with a
confirmation message exactly when `remove` resolves with a count greater
than zero, answers 404 when `remove` resolves with count zero, and answers
500 when `remove` rejects. -/
theorem deleteById_statuses (db : Db) (i : String) :
    (∀ c, db.remove i = .ok c → 0 < c →
      (hubsRemove db i).2 = ⟨200, .json (.obj [("message", .str "The hub has been nuked")])⟩ ∧
      (adoptersRemove db i).2
        = ⟨200, .json (.obj [("message", .str "The adopter has been nuked")])⟩) ∧
    (db.remove i = .ok 0 →
      (hubsRemove db i).2 = ⟨404, .json (.obj [("message", .str "The hub could not be found")])⟩ ∧
      (adoptersRemove db i).2
        = ⟨404, .json (.obj [("message", .str "The adopter could not be found")])⟩) ∧
    (∀ e, db.remove i = .error e →
      (hubsRemove db i).2 = ⟨500, .json (.obj [("message", .str "Error removing the hub")])⟩ ∧
      (adoptersRemove db i).2
        = ⟨500, .json (.obj [("message", .str "Error removing the adopter")])⟩) := by
  refine ⟨?_, ?_, ?_⟩
  · intro c h hc
    constructor <;> simp [hubsRemove, adoptersRemove, h, hc]
  · intro h
    constructor <;> simp [hubsRemove, adoptersRemove, h]
  · intro e h
    constructor <;> simp [hubsRemove, adoptersRemove, h]

/-- C5 witness: a one-row removal answers 200 with the confirmation, a
zero-row removal answers 404, and a rejecting removal answers 500. -/
theorem deleteById_statuses_witness :
    (hubsRemove goodDb "3").2
      = ⟨200, .json (.obj [("message", .str "The hub has been nuked")])⟩ ∧
    (hubsRemove dbRemoveNone "3").2
      = ⟨404, .json (.obj [("message", .str "The hub could not be found")])⟩ ∧
    (adoptersRemove (failingDb .null) "3").2
      = ⟨500, .json (.obj [("message", .str "Error removing the adopter")])⟩ := by
  refine ⟨?_, ?_, ?_⟩
  · exact ((deleteById_statuses goodDb "3").1 1 rfl (by decide)).1
  · exact ((deleteById_statuses dbRemoveNone "3").2.1 rfl).1
  · exact ((deleteById_statuses (failingDb .null) "3").2.2 .null rfl).2

/-- C9: in the standalone messages router, `GET /:id` maps a collaborator
rejection to 500 with the raw rejection value placed in the `message` field
of the body, and maps a successful falsy lookup to 404 with exactly the body
`success: false, message: 'invalid message id'`. -/
theorem messages_getById_error_contract (db : Db) (i : String) :
    (∀ e, db.findMessageById i = .error e →
      (messagesGetById db i).2
        = ⟨500, .json (.obj [("success", .bool false), ("message", e)])⟩) ∧
    (∀ v, db.findMessageById i = .ok v → v.truthy = false →
      (messagesGetById db i).2
        = ⟨404, .json (.obj [("success", .bool false), ("message", .str "invalid message id")])⟩) := by
  constructor
  · intro e h; simp [messagesGetById, h]
  · intro v h hv; simp [messagesGetById, h, hv]

/-- C9 witness: a rejection with the value `"boom"` is answered 500 with that
raw value in the `message` field; a `null` lookup is answered with the exact
404 body. -/
theorem messages_getById_error_contract_witness :
    (messagesGetById (failingDb (.str "boom")) "1").2
      = ⟨500, .json (.obj [("success", .bool false), ("message", .str "boom")])⟩ ∧
    (messagesGetById dbNullMessage "1").2
      = ⟨404, .json (.obj [("success", .bool false), ("message", .str "invalid message id")])⟩ := by
  constructor
  · exact (messages_getById_error_contract (failingDb (.str "boom")) "1").1 _ rfl
  · exact (messages_getById_error_contract dbNullMessage "1").2 _ rfl rfl

/-- C1 counterexample: the standalone messages router's `GET /:id` is NOT
covered by the claimed single exception, yet its 500 body embeds the raw
rejection value — two different rejection values produce two different
response bodies, so the body is not a fixed message string. -/
theorem errorMapping_counterexample :
    (messagesGetById (failingDb (.str "boomA")) "1").2
      = ⟨500, .json (.obj [("success", .bool false), ("message", .str "boomA")])⟩ ∧
    (messagesGetById (failingDb (.str "boomA")) "1").2
      ≠ (messagesGetById (failingDb (.str "boomB")) "1").2 := by
  exact ⟨rfl, by decide⟩

/-- C1 amended: for every collaborator-layer rejection value `e`, every
handler answers 500, and every handler's body is a fixed message independent
of `e` — with exactly two exceptions, which embed the raw failure value in
the body: the nested message creation `POST /:id/messages` (body `err: e`)
and the standalone messages router's `GET /:id` (body `success: false,
message: e`). -/
theorem errorMapping_two_leaks (e q b : Json) (i : String) (req : Req) :
    (hubsFind (failingDb e) q).2
      = ⟨500, .json (.obj [("message", .str "Error retrieving the hubs")])⟩ ∧
    (hubsFindById (failingDb e) i).2
      = ⟨500, .json (.obj [("message", .str "Error retrieving the hub")])⟩ ∧
    (hubsAdd (failingDb e) b).2
      = ⟨500, .json (.obj [("message", .str "Error adding the hub")])⟩ ∧
    (hubsRemove (failingDb e) i).2
      = ⟨500, .json (.obj [("message", .str "Error removing the hub")])⟩ ∧
    (hubsUpdate (failingDb e) i b).2
      = ⟨500, .json (.obj [("message", .str "Error updating the hub")])⟩ ∧
    (hubsGetMessages (failingDb e) i).2
      = ⟨500, .json (.obj [("message", .str "Error retrieving the messages for this hub")])⟩ ∧
    (adoptersFind (failingDb e) q).2
      = ⟨500, .json (.obj [("message", .str "Error retrieving the adopters")])⟩ ∧
    (adoptersFindById (failingDb e) i).2
      = ⟨500, .json (.obj [("message", .str "Error retrieving the adopter")])⟩ ∧
    (adoptersGetDogs1 (failingDb e) i).2
      = ⟨500, .json (.obj [("message", .str "Error retrieving the dogs for this adopter")])⟩ ∧
    (adoptersGetDogs2 (failingDb e) i).2
      = ⟨500, .json (.obj [("message", .str "Error retrieving the dogs for this adopter")])⟩ ∧
    (adoptersAdd (failingDb e) b).2
      = ⟨500, .json (.obj [("message", .str "Error adding the adopter")])⟩ ∧
    (adoptersRemove (failingDb e) i).2
      = ⟨500, .json (.obj [("message", .str "Error removing the adopter")])⟩ ∧
    (adoptersUpdate (failingDb e) i b).2
      = ⟨500, .json (.obj [("message", .str "Error updating the adopter")])⟩ ∧
    (getAdopters (failingDb e) req).2
      = ⟨500, .json (.obj [("message", .str "Error retrieving the adopters")])⟩ ∧
    (getAdopterById (failingDb e) req).2
      = ⟨500, .json (.obj [("message", .str "Error retrieving the adopters")])⟩ ∧
    (getAdopterDogs (failingDb e) req).2
      = ⟨500, .json (.obj [("message", .str "Error retrieving the adopters")])⟩ ∧
    (hubsPostMessage (failingDb e) i b).2
      = ⟨500, .json (.obj [("err", e)])⟩ ∧
    (messagesGetById (failingDb e) i).2
      = ⟨500, .json (.obj [("success", .bool false), ("message", e)])⟩ :=
  ⟨rfl, rfl, rfl, rfl, rfl, rfl, rfl, rfl, rfl, rfl, rfl, rfl, rfl, rfl, rfl, rfl,
   rfl, rfl⟩

/-- C7: binding the same router object to the three URL prefixes makes the
application's handling of a request under any of the prefixes identical for
every method, suffix path, query and body — the dispatched call/response
outcome is the same `Option` value, and so are the response bytes on the
wire.  (`none` on both sides means no handler registered in this repository
matched; such a request is handed, unanswered, to the framework on either
prefix.) -/
theorem alias_prefixes_byte_identical (db : Db) (m : Method) (s : List String) (q b : Json) :
    serverDispatch db m ("api" :: "hubs" :: s) q b
      = serverDispatch db m ("repos" :: s) q b ∧
    serverDispatch db m ("repos" :: s) q b
      = serverDispatch db m ("thing" :: "otherthing" :: s) q b ∧
    (serverDispatch db m ("api" :: "hubs" :: s) q b).map (fun r => r.2.wire)
      = (serverDispatch db m ("repos" :: s) q b).map (fun r => r.2.wire) ∧
    (serverDispatch db m ("repos" :: s) q b).map (fun r => r.2.wire)
      = (serverDispatch db m ("thing" :: "otherthing" :: s) q b).map (fun r => r.2.wire) :=
  ⟨rfl, rfl, rfl, rfl⟩

/-- C10: the two registrations of `GET /:id/dogs` on the adopters router are
behaviourally equal handlers (same collaborator call, same responses), and —
the first registration winning every dispatch — the router's observable
behaviour equals that of the router with the second registration removed, at
every method, path, query and body. -/
theorem duplicate_dogs_route_redundant (db : Db) :
    (∀ id, adoptersGetDogs1 db id = adoptersGetDogs2 db id) ∧
    (∀ m path q b, adoptersRouter db m path q b = adoptersRouterNoDup db m path q b) := by
  refine ⟨fun id => rfl, ?_⟩
  intro m path q b
  cases m <;> rcases path with _ | ⟨a, _ | ⟨c, _ | ⟨d, t⟩⟩⟩ <;>
    simp [adoptersRouter, adoptersRouterNoDup, firstHit]

/-- C6 counterexample: no four distinct exported controller entries are
unconditional `implemented: false` stubs — any such four would all produce
the stub outcome on the concrete happy-path input, but exactly three of the
six entries do (`postAdopter`, `deleteAdopterById`, `putAdopterById`; the
other three answer 200 there). -/
theorem controller_four_stubs_counterexample :
    ¬ ∃ l : List (String × (Db → Req → List DbCall × Response)),
        l.Sublist adoptersController ∧ l.length = 4 ∧
        ∀ e ∈ l, ∀ db req, e.2 db req = stubOutput := by
  rintro ⟨l, hsub, hlen, hall⟩
  have h1 : ∀ e ∈ l, (fun e => isStubOutput (e.2 goodDb cReq)) e = true := by
    intro e he
    simp [isStubOutput, hall e he goodDb cReq]
  have h2 : l.filter (fun e => isStubOutput (e.2 goodDb cReq)) = l :=
    List.filter_eq_self.mpr h1
  have h3 := (hsub.filter (fun e => isStubOutput (e.2 goodDb cReq))).length_le
  rw [h2, hlen] at h3
  have h4 : (adoptersController.filter (fun e => isStubOutput (e.2 goodDb cReq))).length = 3 :=
    rfl
  omega

/-- C6 amended: three of the exported controller entries — `postAdopter`,
`deleteAdopterById`, `putAdopterById`, the placeholders for create, delete
and update on the parent resource — are unimplemented stubs that, for every
collaborator and request, answer 400 with the body `implemented: false` and
make no collaborator call; and on the happy-path input they are exactly the
entries producing the stub outcome. -/
theorem controller_three_stubs (db : Db) (req : Req) :
    postAdopter db req = stubOutput ∧
    deleteAdopterById db req = stubOutput ∧
    putAdopterById db req = stubOutput ∧
    (adoptersController.filter (fun e => isStubOutput (e.2 goodDb cReq))).map Prod.fst
      = ["postAdopter", "deleteAdopterById", "putAdopterById"] :=
  ⟨rfl, rfl, rfl, rfl⟩

/-- Every route of the hubs router hands the request to a handler making at
most one collaborator call. -/
theorem hubsRouter_calls_le (db : Db) (m : Method) (p : List String) (q b : Json)
    (r : List DbCall × Response) (h : hubsRouter db m p q b = some r) :
    r.1.length ≤ 1 := by
  unfold hubsRouter at h
  split at h <;> (try split at h) <;> cases h <;>
    simp [hubsFind, hubsFindById, hubsGetMessages, hubsAdd, hubsPostMessage,
      hubsRemove, hubsUpdate]

/-- The messages router's single route makes one collaborator call. -/
theorem messagesRouter_calls_le (db : Db) (m : Method) (p : List String)
    (r : List DbCall × Response) (h : messagesRouter db m p = some r) :
    r.1.length ≤ 1 := by
  unfold messagesRouter at h
  split at h <;> cases h
  simp [messagesGetById]

/-- The root welcome handler makes no collaborator call. -/
theorem rootRoute_calls_le (m : Method) (p : List String)
    (r : List DbCall × Response) (h : rootRoute m p = some r) :
    r.1.length ≤ 1 := by
  unfold rootRoute at h
  split at h <;> cases h
  simp

/-- Every route of the adopters router hands the request to a handler making
at most one collaborator call. -/
theorem adoptersRouter_calls_le (db : Db) (m : Method) (p : List String) (q b : Json)
    (r : List DbCall × Response) (h : adoptersRouter db m p q b = some r) :
    r.1.length ≤ 1 := by
  unfold adoptersRouter at h
  split at h <;> (try split at h) <;> cases h <;>
    simp [firstHit, adoptersFind, adoptersFindById, adoptersGetDogs1,
      adoptersAdd, adoptersRemove, adoptersUpdate]

/-- C8 counterexample: a request dispatched to a registered handler with zero
collaborator calls — `GET /` is answered by the static welcome handler with
an empty call list, and the controller stub `postAdopter` likewise answers
with an empty call list — so not every dispatched request triggers exactly
one round trip. -/
theorem exactly_one_call_counterexample :
    (serverDispatch goodDb Method.get [] Json.null Json.null).map (fun r => r.1.length)
      = some 0 ∧
    (postAdopter goodDb cReq).1.length = 0 ∧
    (0 : Nat) ≠ 1 :=
  ⟨rfl, rfl, by decide⟩

/-- C8 amended: every request dispatched to a registered handler triggers at
most one collaborator round trip — on the hubs/messages application and on
the adopters router alike; the nested create performs its single
`addMessage` call on the pre-merged payload (not two calls); the three
data-backed controller entries perform exactly one call and the three stubs
none. -/
theorem per_request_call_bound :
    (∀ db m p q b r, serverDispatch db m p q b = some r → r.1.length ≤ 1) ∧
    (∀ db m p q b r, adoptersRouter db m p q b = some r → r.1.length ≤ 1) ∧
    (∀ db id b, (hubsPostMessage db id b).1 = [DbCall.addMessage (messageInfo b id)]) ∧
    (∀ db req, (getAdopters db req).1.length = 1 ∧ (getAdopterById db req).1.length = 1 ∧
      (getAdopterDogs db req).1.length = 1 ∧ (postAdopter db req).1 = [] ∧
      (deleteAdopterById db req).1 = [] ∧ (putAdopterById db req).1 = []) := by
  refine ⟨?_, adoptersRouter_calls_le, fun db id b => rfl,
    fun db req => ⟨rfl, rfl, rfl, rfl, rfl, rfl⟩⟩
  intro db m p q b r h
  unfold serverDispatch at h
  rcases firstHit_eq_some h with h | h
  · split at h
    · exact hubsRouter_calls_le db m _ q b r h
    · cases h
  rcases firstHit_eq_some h with h | h
  · split at h
    · exact hubsRouter_calls_le db m _ q b r h
    · cases h
  rcases firstHit_eq_some h with h | h
  · split at h
    · exact hubsRouter_calls_le db m _ q b r h
    · cases h
  rcases firstHit_eq_some h with h | h
  · split at h
    · exact messagesRouter_calls_le db m _ r h
    · cases h
  exact rootRoute_calls_le m p r h

/-- C8 witness: the amended bound applied at concrete dispatched requests —
`GET /api/hubs/3` on the hubs application and `GET /3` on the adopters
router, both answered by a handler with at most one collaborator call. -/
theorem per_request_call_bound_witness :
    (hubsFindById goodDb "3").1.length ≤ 1 ∧
    (adoptersFindById goodDb "3").1.length ≤ 1 := by
  constructor
  · exact per_request_call_bound.1 goodDb .get ["api", "hubs", "3"] .null .null _ rfl
  · exact per_request_call_bound.2.1 goodDb .get ["3"] .null .null _ rfl
